import Mathlib

/-!
Verification development for the Suraksha-AI backend (src/backend/app.py).

The Python source is shallowly embedded below.  Bytes are modelled as
`Fin 256`; the float entropy of `calculate_entropy` is modelled over `ℝ`
with `math.log2` as `Real.logb 2` and Python's `round(x, 2)` as rounding
`100 * x` to the nearest integer and dividing by `100` (yielding an exact
rational, which the threshold comparisons consume).  The opaque external
collaborators (the pickled classifier and the Gemini text-generation
service) are passed in as function parameters: the classifier as
`String → String` and the generation service as an oracle from the prompt
data to `Option String` (`none` models any exception raised by the call).
Flask request data is modelled as plain values: a JSON body with a
`message` field (plus an optional `language` field, which the handler
never reads), and an uploaded file as `Option (filename × bytes)`
(`none` when the `file` part is absent).  The random `scan_id` and the
wall-clock `timestamp_utc` metadata fields are outside every claim and
are omitted from the embedded responses.
-/

namespace Suraksha

abbrev Byte := Fin 256

/-- Bytes of an ASCII string, used to build concrete file contents. -/
def strBytes (s : String) : List Byte :=
  s.toList.map (fun c => (⟨c.toNat % 256, Nat.mod_lt _ (by norm_num)⟩ : Byte))

/-- Python's `str.lower()` (character-wise lowering). -/
def pyLower (s : String) : String := String.mk (s.toList.map Char.toLower)

/-- Python's `str.strip()`: whitespace removed from both ends. -/
def pyStrip (s : String) : String :=
  String.mk (((s.toList.dropWhile Char.isWhitespace).reverse.dropWhile Char.isWhitespace).reverse)

/-- Rounding of a real to two decimal places, as an exact rational:
the model of Python's `round(x, 2)` in `calculate_entropy`. -/
noncomputable def round2 (x : ℝ) : ℚ :=
  ((round (100 * x) : ℤ) : ℚ) / 100

/-- Shannon entropy loop of `calculate_entropy` (app.py lines 54-58):
`Counter` iterates over the distinct byte values, and each contributes
`-(count/len) * log2 (count/len)`. -/
noncomputable def rawEntropy (bs : List Byte) : ℝ :=
  - ∑ b ∈ bs.toFinset,
      ((bs.count b : ℝ) / (bs.length : ℝ)) * Real.logb 2 ((bs.count b : ℝ) / (bs.length : ℝ))

/-- Embedding of `calculate_entropy` (app.py lines 51-59): `0` for the
empty buffer, otherwise the Shannon entropy rounded to two decimals. -/
noncomputable def calculate_entropy (bs : List Byte) : ℚ :=
  if bs = [] then 0 else round2 (rawEntropy bs)

/-- Prompt data of `gemini_explain_file` (the fixed template instantiated
with these three values). -/
structure FilePrompt where
  entropy : ℚ
  risk_score : ℕ
  verdict : String

/-- Embedding of `gemini_explain_file` (app.py lines 62-82): builds the
prompt, performs exactly one live call to the generation service, and on
any exception returns the fixed fallback string.  The second component
counts the live calls made (always `1`: the call is unconditional). -/
def gemini_explain_file (svc : FilePrompt → Option String)
    (entropy : ℚ) (risk_score : ℕ) (verdict : String) : String × ℕ :=
  match svc ⟨entropy, risk_score, verdict⟩ with
  | some t => (pyStrip t, 1)
  | none => ("Explanation unavailable.", 1)

/-- Prompt data of `gemini_explain_phishing`. -/
structure PhishPrompt where
  message : String
  signals : List String
  risk : String
  confidence : ℤ

/-- Embedding of `gemini_explain_phishing` (app.py lines 85-111): one
unconditional live call, fixed fallback string on any exception.  The
second component counts the live calls made. -/
def gemini_explain_phishing (svc : PhishPrompt → Option String)
    (message : String) (risk : String) (confidence : ℤ) (signals : List String) : String × ℕ :=
  match svc ⟨message, signals, risk, confidence⟩ with
  | some t => (pyStrip t, 1)
  | none => ("This message shows characteristics commonly associated with phishing attempts.", 1)

/-- Word characters of the regex class `\w` (ASCII reading). -/
def isWordChar (c : Char) : Bool := c.isAlphanum || c = '_'

/-- Characters of the regex class `[\w\.-]`. -/
def isEmailChar (c : Char) : Bool := isWordChar c || c = '.' || c = '-'

/-- Match of `https?://\S+` anchored at the head of the character list. -/
def urlAt : List Char → Bool
  | 'h' :: 't' :: 't' :: 'p' :: 's' :: ':' :: '/' :: '/' :: c :: _ => !c.isWhitespace
  | 'h' :: 't' :: 't' :: 'p' :: ':' :: '/' :: '/' :: c :: _ => !c.isWhitespace
  | _ => false

/-- Search of `https?://\S+` anywhere in the text, as `re.search` does. -/
def hasUrl (cs : List Char) : Bool := cs.tails.any urlAt

/-- Match of `[\w\.-]+\.\w+` anchored at the head, given that at least one
`[\w\.-]` character has already been consumed. -/
def domainAfterOne : List Char → Bool
  | '.' :: c :: rest => isWordChar c || domainAfterOne (c :: rest)
  | c :: rest => isEmailChar c && domainAfterOne rest
  | [] => false

/-- Match of `[\w\.-]+\.\w+` anchored at the head of the list. -/
def domainMatch : List Char → Bool
  | c :: rest => isEmailChar c && domainAfterOne rest
  | [] => false

/-- Scan for `[\w\.-]+@[\w\.-]+\.\w+`; the flag records whether the
previous character lies in `[\w\.-]`. -/
def emailScan : List Char → Bool → Bool
  | [], _ => false
  | '@' :: rest, prev => (prev && domainMatch rest) || emailScan rest false
  | c :: rest, _ => emailScan rest (isEmailChar c)

/-- Search of the email regex `[\w\.-]+@[\w\.-]+\.\w+` anywhere in the
text, as `re.search` does. -/
def hasEmail (cs : List Char) : Bool := emailScan cs false

/-- Containment of `needle` as a contiguous sublist of `hay`. -/
def listInfix [DecidableEq α] (needle hay : List α) : Bool :=
  hay.tails.any (fun t => List.isPrefixOf needle t)

/-- Python substring containment `w in text`. -/
def strContains (hay needle : String) : Bool := listInfix needle.toList hay.toList

def urgentWords : List String := ["urgent", "immediately", "act now", "verify now"]

def impersonationWords : List String := ["bank", "paypal", "government", "admin", "amazon"]

def credentialWords : List String := ["otp", "password", "login", "verify account"]

/-- Values of the `phishing_signals` dictionary (app.py lines 131-137). -/
structure SignalSet where
  suspicious_link : Bool
  email_address_present : Bool
  urgent_language : Bool
  impersonation : Bool
  credential_request : Bool
deriving DecidableEq, Repr

/-- Embedding of the signal extraction of `analyze` (app.py lines 131-137),
evaluated on the lowercased message. -/
def phishing_signals (text : String) : SignalSet where
  suspicious_link := hasUrl text.toList
  email_address_present := hasEmail text.toList
  urgent_language := urgentWords.any (fun w => strContains text w)
  impersonation := impersonationWords.any (fun w => strContains text w)
  credential_request := credentialWords.any (fun w => strContains text w)

/-- Python's `sum(phishing_signals.values())` (app.py line 140). -/
def SignalSet.score (s : SignalSet) : ℕ :=
  s.suspicious_link.toNat + s.email_address_present.toNat + s.urgent_language.toNat
    + s.impersonation.toNat + s.credential_request.toNat

/-- Names of the active signals with underscores replaced by spaces
(app.py line 139), in dictionary order. -/
def SignalSet.activeNames (s : SignalSet) : List String :=
  (if s.suspicious_link then ["suspicious link"] else [])
    ++ (if s.email_address_present then ["email address present"] else [])
    ++ (if s.urgent_language then ["urgent language"] else [])
    ++ (if s.impersonation then ["impersonation"] else [])
    ++ (if s.credential_request then ["credential request"] else [])

/-- Classifier weight added to the score (app.py lines 145-148). -/
def mlWeight (label : String) : ℕ :=
  if label = "Dangerous" then 3 else if label = "Suspicious" then 1 else 0

/-- Verdict and confidence from the fused score (app.py lines 150-158). -/
def textRisk (score : ℕ) : String × ℤ :=
  if score ≥ 4 then ("Dangerous", min 95 (70 + (score : ℤ) * 5))
  else if score ≥ 2 then ("Suspicious", min 85 (55 + (score : ℤ) * 5))
  else ("Safe", max 30 (85 - (score : ℤ) * 10))

/-- Recommended action string of the `analyze` response (app.py lines 172-176). -/
def recommendedAction (risk : String) : String :=
  if risk = "Dangerous" then
    "Do not click any links or respond. Report and delete this message immediately."
  else
    "Verify the sender before responding and avoid sharing sensitive information."

/-- JSON body of a `/analyze` request.  The handler reads only the
`message` field; `language` models any further field a client sends. -/
structure AnalyzeBody where
  message : String
  language : Option String

/-- Response of the `/analyze` route: either the 400 error object or the
scored JSON payload. -/
inductive AnalyzeResult where
  | err (error : String) (status : ℕ)
  | ok (risk : String) (confidence : ℤ) (signals : SignalSet)
      (ai_explanation : String) (recommended_action : String)
deriving DecidableEq

def AnalyzeResult.isErr : AnalyzeResult → Bool
  | .err _ _ => true
  | .ok _ _ _ _ _ => false

def AnalyzeResult.risk : AnalyzeResult → String
  | .err _ _ => ""
  | .ok r _ _ _ _ => r

def AnalyzeResult.confidence : AnalyzeResult → ℤ
  | .err _ _ => 0
  | .ok _ c _ _ _ => c

def AnalyzeResult.signals : AnalyzeResult → SignalSet
  | .err _ _ => ⟨false, false, false, false, false⟩
  | .ok _ _ s _ _ => s

def AnalyzeResult.explanation : AnalyzeResult → String
  | .err _ _ => ""
  | .ok _ _ _ e _ => e

/-- Embedding of the `/analyze` handler (app.py lines 121-182).  The
second component counts the live calls made to the explanation service
while handling the request. -/
def analyze (classify : String → String) (svc : PhishPrompt → Option String)
    (body : AnalyzeBody) : AnalyzeResult × ℕ :=
  let message := pyStrip body.message
  if message = "" then (.err "Message is required" 400, 0)
  else
    let sg := phishing_signals (pyLower message)
    let score := sg.score + mlWeight (classify message)
    let rc := textRisk score
    let ec := gemini_explain_phishing svc message rc.1 rc.2
      (if sg.activeNames = [] then ["ML-based classification"] else sg.activeNames)
    (.ok rc.1 rc.2 sg ec.1 (recommendedAction rc.1), ec.2)

/-- Threshold table of `vault_analyze` (app.py lines 195-203), as a
function of the computed entropy. -/
def vaultRisk (entropy : ℚ) : ℕ × String :=
  if entropy > 7.6 then (85, "Malicious")
  else if entropy > 6.6 then (55, "Suspicious")
  else (20, "Safe")

/-- Threshold table of `scan_file` (app.py lines 224-232), as a function
of the computed entropy. -/
def scanRisk (entropy : ℚ) : ℕ × String :=
  if entropy > 7.6 then (90, "Malicious")
  else if entropy > 6.8 then (60, "Suspicious")
  else (20, "Clean")

/-- Response of the `/vault-analyze` route. -/
inductive VaultResult where
  | err (error : String) (status : ℕ)
  | ok (risk_score : ℕ) (verdict : String) (gemini_explanation : String)
deriving DecidableEq

def VaultResult.isErr : VaultResult → Bool
  | .err _ _ => true
  | .ok _ _ _ => false

def VaultResult.risk_score : VaultResult → ℕ
  | .err _ _ => 0
  | .ok r _ _ => r

def VaultResult.verdict : VaultResult → String
  | .err _ _ => ""
  | .ok _ v _ => v

def VaultResult.explanation : VaultResult → String
  | .err _ _ => ""
  | .ok _ _ e => e

/-- Embedding of the `/vault-analyze` handler (app.py lines 186-211);
the uploaded file part is `some (filename, bytes)` or `none`. -/
noncomputable def vault_analyze (svc : FilePrompt → Option String)
    (file : Option (String × List Byte)) : VaultResult × ℕ :=
  match file with
  | none => (.err "No file received" 400, 0)
  | some f =>
    let entropy := calculate_entropy f.2
    let rv := vaultRisk entropy
    let ec := gemini_explain_file svc entropy rv.1 rv.2
    (.ok rv.1 rv.2 ec.1, ec.2)

/-- Response of the `/scan-file` route. -/
inductive ScanResult where
  | err (error : String) (status : ℕ)
  | ok (file_name : String) (entropy : ℚ) (risk_score : ℕ) (status : String)
      (verdict : String) (gemini_explanation : String)
deriving DecidableEq

def ScanResult.isErr : ScanResult → Bool
  | .err _ _ => true
  | .ok _ _ _ _ _ _ => false

def ScanResult.risk_score : ScanResult → ℕ
  | .err _ _ => 0
  | .ok _ _ r _ _ _ => r

def ScanResult.verdict : ScanResult → String
  | .err _ _ => ""
  | .ok _ _ _ _ v _ => v

def ScanResult.entropyVal : ScanResult → ℚ
  | .err _ _ => 0
  | .ok _ e _ _ _ _ => e

def ScanResult.explanation : ScanResult → String
  | .err _ _ => ""
  | .ok _ _ _ _ _ e => e

/-- Embedding of the `/scan-file` handler (app.py lines 215-248). -/
noncomputable def scan_file (svc : FilePrompt → Option String)
    (file : Option (String × List Byte)) : ScanResult × ℕ :=
  match file with
  | none => (.err "No file uploaded" 400, 0)
  | some f =>
    let entropy := calculate_entropy f.2
    let rv := scanRisk entropy
    let ec := gemini_explain_file svc entropy rv.1 rv.2
    (.ok f.1 entropy rv.1 "Complete" rv.2 ec.1, ec.2)

/-- Modelled from the spec: the signature-weighted file scoring of
section 4.4 (deny-set extension weight 30, weight 40 per matched byte
signature, thresholds 70/40, reported score `min(score+10, 100)`) is
absent from src/backend/app.py; the deny-set follows the spec's example
list and the byte signatures instantiate its example class of
shell/remote-execution markers.  Returns (score, verdict, reported). -/
def spec_signature_scan (filename : String) (content : List Byte) : ℕ × String × ℕ :=
  let exts : List String := [".exe", ".dll", ".js", ".bat", ".cmd", ".ps1", ".vbs", ".jar"]
  let sigs : List String := ["powershell", "cmd.exe", "wscript"]
  let extScore : ℕ :=
    if exts.any (fun e => List.isSuffixOf e.toList (pyLower filename).toList) then 30 else 0
  let sigCount := (sigs.filter (fun s => listInfix (strBytes s) content)).length
  let score := extScore + 40 * sigCount
  let verdict := if score ≥ 70 then "Malicious" else if score ≥ 40 then "Suspicious" else "Clean"
  (score, verdict, min (score + 10) 100)

/-- Verdict tiers: Safe and Clean at 0, Suspicious at 1, Dangerous and
Malicious at 2. -/
def tier (verdict : String) : ℕ :=
  if verdict = "Suspicious" then 1
  else if verdict = "Dangerous" || verdict = "Malicious" then 2
  else 0

/-- Concrete file content holding each of the 256 byte values once. -/
def allBytes : List Byte := List.finRange 256

/-- Concrete file content holding 128 distinct byte values once each. -/
def bytes128 : List Byte := (List.finRange 256).take 128

/-- Concrete file content: the bytes of the marker string `wscript`
(seven distinct byte values). -/
def wsBytes : List Byte := strBytes "wscript"

theorem round2_mono {x y : ℝ} (h : x ≤ y) : round2 x ≤ round2 y := by
  unfold round2
  have hr : round (100 * x) ≤ round (100 * y) := by
    rw [round_eq, round_eq]
    exact Int.floor_mono (by linarith)
  exact div_le_div_of_nonneg_right (by exact_mod_cast hr) (by norm_num)

theorem round2_intCast (m : ℤ) : round2 ((m : ℝ)) = (m : ℚ) := by
  unfold round2
  have : (100 : ℝ) * (m : ℝ) = ((100 * m : ℤ) : ℝ) := by push_cast; ring
  rw [this, round_intCast]
  push_cast
  ring

theorem count_div_length_pos {bs : List Byte} {b : Byte} (hb : b ∈ bs.toFinset) :
    0 < (bs.count b : ℝ) / (bs.length : ℝ) := by
  have hmem : b ∈ bs := List.mem_toFinset.mp hb
  have hc : 0 < bs.count b := List.count_pos_iff.mpr hmem
  have hl : 0 < bs.length := List.length_pos.mpr (List.ne_nil_of_mem hmem)
  positivity

theorem count_div_length_le_one {bs : List Byte} {b : Byte} (hb : b ∈ bs.toFinset) :
    (bs.count b : ℝ) / (bs.length : ℝ) ≤ 1 := by
  have hmem : b ∈ bs := List.mem_toFinset.mp hb
  have hl : 0 < bs.length := List.length_pos.mpr (List.ne_nil_of_mem hmem)
  rw [div_le_one (by exact_mod_cast hl)]
  exact_mod_cast List.count_le_length b bs

theorem sum_weights (bs : List Byte) :
    ∑ b ∈ bs.toFinset, (bs.count b : ℝ) / (bs.length : ℝ) = if bs = [] then 0 else 1 := by
  rcases eq_or_ne bs [] with rfl | h
  · simp
  · rw [if_neg h, ← Finset.sum_div]
    have hs : ∑ b ∈ bs.toFinset, (bs.count b : ℝ) = (bs.length : ℝ) := by
      exact_mod_cast congrArg (Nat.cast (R := ℝ)) (List.sum_toFinset_count_eq_length bs)
    rw [hs]
    have hl : 0 < bs.length := List.length_pos.mpr h
    exact div_self (by exact_mod_cast hl.ne')

theorem rawEntropy_nonneg (bs : List Byte) : 0 ≤ rawEntropy bs := by
  unfold rawEntropy
  rw [neg_nonneg]
  refine Finset.sum_nonpos fun b hb => ?_
  have h1 := count_div_length_pos hb
  have h2 := count_div_length_le_one hb
  have hlog : Real.logb 2 ((bs.count b : ℝ) / (bs.length : ℝ)) ≤ 0 :=
    Real.logb_nonpos (by norm_num) h1.le h2
  exact mul_nonpos_of_nonneg_of_nonpos h1.le hlog

theorem rawEntropy_le_logb_card {bs : List Byte} (h : bs ≠ []) :
    rawEntropy bs ≤ Real.logb 2 ((bs.toFinset.card : ℝ)) := by
  classical
  have hlog2 : (0 : ℝ) < Real.log 2 := Real.log_pos (by norm_num)
  have hwpos : ∀ b ∈ bs.toFinset, 0 < (bs.count b : ℝ) / (bs.length : ℝ) :=
    fun b hb => count_div_length_pos hb
  have hwsum : ∑ b ∈ bs.toFinset, (bs.count b : ℝ) / (bs.length : ℝ) = 1 := by
    rw [sum_weights bs, if_neg h]
  have hjensen : ∑ b ∈ bs.toFinset,
      ((bs.count b : ℝ) / (bs.length : ℝ)) • Real.log ((bs.count b : ℝ) / (bs.length : ℝ))⁻¹ ≤
      Real.log (∑ b ∈ bs.toFinset,
        ((bs.count b : ℝ) / (bs.length : ℝ)) • ((bs.count b : ℝ) / (bs.length : ℝ))⁻¹) :=
    (strictConcaveOn_log_Ioi.concaveOn).le_map_sum (fun b hb => (hwpos b hb).le) hwsum
      (fun b hb => Set.mem_Ioi.mpr (inv_pos.mpr (hwpos b hb)))
  have hptsum : ∑ b ∈ bs.toFinset,
      ((bs.count b : ℝ) / (bs.length : ℝ)) • ((bs.count b : ℝ) / (bs.length : ℝ))⁻¹
        = (bs.toFinset.card : ℝ) := by
    rw [Finset.sum_congr rfl
      (fun b hb => by rw [smul_eq_mul, mul_inv_cancel₀ (hwpos b hb).ne'])]
    rw [Finset.sum_const, nsmul_eq_mul, mul_one]
  rw [hptsum] at hjensen
  simp only [smul_eq_mul] at hjensen
  have hent : rawEntropy bs = (∑ b ∈ bs.toFinset,
      ((bs.count b : ℝ) / (bs.length : ℝ)) * Real.log ((bs.count b : ℝ) / (bs.length : ℝ))⁻¹)
        / Real.log 2 := by
    unfold rawEntropy
    rw [Finset.sum_div, ← Finset.sum_neg_distrib]
    refine Finset.sum_congr rfl fun b hb => ?_
    rw [Real.log_inv, Real.logb]
    field_simp
  rw [hent, Real.logb]
  exact div_le_div_of_nonneg_right hjensen hlog2.le

theorem logb_two_pow (k : ℕ) : Real.logb 2 ((2 : ℝ) ^ k) = (k : ℝ) := by
  rw [Real.logb_pow, Real.logb_self_eq_one (by norm_num), mul_one]

theorem rawEntropy_le_eight (bs : List Byte) : rawEntropy bs ≤ 8 := by
  rcases eq_or_ne bs [] with rfl | h
  · unfold rawEntropy
    rw [List.toFinset_nil, Finset.sum_empty, neg_zero]
    norm_num
  · refine le_trans (rawEntropy_le_logb_card h) ?_
    have hcard_pos : 0 < bs.toFinset.card := by
      refine Finset.card_pos.mpr ?_
      obtain ⟨b, hb⟩ := List.exists_mem_of_ne_nil bs h
      exact ⟨b, List.mem_toFinset.mpr hb⟩
    have hcard_le : bs.toFinset.card ≤ 256 := by
      have h2 := Finset.card_le_card (Finset.subset_univ bs.toFinset)
      rwa [Finset.card_fin] at h2
    have h1 : Real.logb 2 ((bs.toFinset.card : ℝ)) ≤ Real.logb 2 ((256 : ℝ)) :=
      Real.logb_le_logb_of_le (by norm_num) (by exact_mod_cast hcard_pos) (by exact_mod_cast hcard_le)
    refine le_trans h1 ?_
    have h256 : (256 : ℝ) = (2 : ℝ) ^ (8 : ℕ) := by norm_num
    rw [h256, logb_two_pow]
    norm_num

theorem rawEntropy_uniform {bs : List Byte} (hd : bs.Nodup) (h : bs ≠ []) :
    rawEntropy bs = Real.logb 2 ((bs.length : ℝ)) := by
  have hl : 0 < bs.length := List.length_pos.mpr h
  have hln : ((bs.length : ℝ)) ≠ 0 := by exact_mod_cast hl.ne'
  unfold rawEntropy
  have hterm : ∀ b ∈ bs.toFinset,
      ((bs.count b : ℝ) / (bs.length : ℝ)) * Real.logb 2 ((bs.count b : ℝ) / (bs.length : ℝ))
        = ((bs.length : ℝ))⁻¹ * Real.logb 2 ((bs.length : ℝ))⁻¹ := by
    intro b hb
    have hc : bs.count b = 1 := List.count_eq_one_of_mem hd (List.mem_toFinset.mp hb)
    rw [hc]
    push_cast
    rw [one_div]
  rw [Finset.sum_congr rfl hterm, Finset.sum_const, List.toFinset_card_of_nodup hd,
    nsmul_eq_mul, Real.logb_inv]
  field_simp

theorem rawEntropy_replicate (b : Byte) (n : ℕ) (hn : n ≠ 0) :
    rawEntropy (List.replicate n b) = 0 := by
  unfold rawEntropy
  rw [neg_eq_zero]
  refine Finset.sum_eq_zero fun c hc => ?_
  have hcb : c = b := List.eq_of_mem_replicate (List.mem_toFinset.mp hc)
  subst hcb
  rw [List.count_replicate_self, List.length_replicate]
  have : ((n : ℝ)) / ((n : ℝ)) = 1 := div_self (by exact_mod_cast hn)
  rw [this]
  simp

theorem calculate_entropy_nil : calculate_entropy ([] : List Byte) = 0 := by
  simp [calculate_entropy]

theorem calculate_entropy_replicate (b : Byte) (n : ℕ) (hn : n ≠ 0) :
    calculate_entropy (List.replicate n b) = 0 := by
  rw [calculate_entropy, if_neg (by simp [hn]), rawEntropy_replicate b n hn]
  have h0 : ((0 : ℤ) : ℝ) = (0 : ℝ) := by norm_num
  rw [← h0, round2_intCast]
  norm_num

theorem calculate_entropy_nonneg (bs : List Byte) : 0 ≤ calculate_entropy bs := by
  rw [calculate_entropy]
  split
  · exact le_refl 0
  · have h := round2_mono (rawEntropy_nonneg bs)
    have h0 : round2 ((0 : ℤ) : ℝ) = (0 : ℚ) := round2_intCast 0
    rw [show ((0 : ℤ) : ℝ) = (0 : ℝ) by norm_num] at h0
    rw [← h0]
    exact h

theorem calculate_entropy_le_eight (bs : List Byte) : calculate_entropy bs ≤ 8 := by
  rw [calculate_entropy]
  split
  · norm_num
  · have h := round2_mono (rawEntropy_le_eight bs)
    have h8 : round2 ((8 : ℤ) : ℝ) = (8 : ℚ) := round2_intCast 8
    rw [show ((8 : ℤ) : ℝ) = (8 : ℝ) by norm_num] at h8
    rw [← h8]
    exact_mod_cast h

theorem calculate_entropy_uniform {bs : List Byte} (hd : bs.Nodup) (h : bs ≠ []) :
    calculate_entropy bs = round2 (Real.logb 2 ((bs.length : ℝ))) := by
  rw [calculate_entropy, if_neg h, rawEntropy_uniform hd h]

theorem entropy_allBytes : calculate_entropy allBytes = 8 := by
  have hd : allBytes.Nodup := List.nodup_finRange 256
  have hne : allBytes ≠ [] := by
    intro hcon
    have := congrArg List.length hcon
    simp [allBytes] at this
  rw [calculate_entropy_uniform hd hne]
  have hlen : allBytes.length = 256 := by simp [allBytes]
  rw [hlen]
  have h256 : ((256 : ℕ) : ℝ) = (2 : ℝ) ^ (8 : ℕ) := by norm_num
  rw [h256, logb_two_pow]
  have h8 : ((8 : ℕ) : ℝ) = ((8 : ℤ) : ℝ) := by norm_num
  rw [h8, round2_intCast]
  norm_num

theorem entropy_bytes128 : calculate_entropy bytes128 = 7 := by
  have hd : bytes128.Nodup := (List.nodup_finRange 256).sublist (List.take_sublist 128 _)
  have hlen : bytes128.length = 128 := by simp [bytes128]
  have hne : bytes128 ≠ [] := by
    intro hcon
    rw [hcon] at hlen
    simp at hlen
  rw [calculate_entropy_uniform hd hne, hlen]
  have h128 : ((128 : ℕ) : ℝ) = (2 : ℝ) ^ (7 : ℕ) := by norm_num
  rw [h128, logb_two_pow]
  have h7 : ((7 : ℕ) : ℝ) = ((7 : ℤ) : ℝ) := by norm_num
  rw [h7, round2_intCast]
  norm_num

/-- Concrete classifier oracle returning the label Safe on every message. -/
def classify0 : String → String := fun _ => "Safe"

/-- Concrete classifier oracle returning the label Dangerous on every message. -/
def classifyD : String → String := fun _ => "Dangerous"

/-- Concrete failing explanation service for text prompts (every call
raises, modelled as `none`). -/
def svcP0 : PhishPrompt → Option String := fun _ => none

/-- Concrete failing explanation service for file prompts. -/
def svcF0 : FilePrompt → Option String := fun _ => none

theorem gemini_explain_file_calls (svc : FilePrompt → Option String)
    (entropy : ℚ) (risk_score : ℕ) (verdict : String) :
    (gemini_explain_file svc entropy risk_score verdict).2 = 1 := by
  unfold gemini_explain_file
  cases svc ⟨entropy, risk_score, verdict⟩ <;> rfl

theorem gemini_explain_phishing_calls (svc : PhishPrompt → Option String)
    (message risk : String) (confidence : ℤ) (signals : List String) :
    (gemini_explain_phishing svc message risk confidence signals).2 = 1 := by
  unfold gemini_explain_phishing
  cases svc ⟨message, signals, risk, confidence⟩ <;> rfl

theorem vault_analyze_some (svc : FilePrompt → Option String) (name : String) (bs : List Byte) :
    vault_analyze svc (some (name, bs)) =
      (.ok (vaultRisk (calculate_entropy bs)).1 (vaultRisk (calculate_entropy bs)).2
          (gemini_explain_file svc (calculate_entropy bs) (vaultRisk (calculate_entropy bs)).1
            (vaultRisk (calculate_entropy bs)).2).1,
        (gemini_explain_file svc (calculate_entropy bs) (vaultRisk (calculate_entropy bs)).1
          (vaultRisk (calculate_entropy bs)).2).2) := rfl

theorem scan_file_some (svc : FilePrompt → Option String) (name : String) (bs : List Byte) :
    scan_file svc (some (name, bs)) =
      (.ok name (calculate_entropy bs) (scanRisk (calculate_entropy bs)).1 "Complete"
          (scanRisk (calculate_entropy bs)).2
          (gemini_explain_file svc (calculate_entropy bs) (scanRisk (calculate_entropy bs)).1
            (scanRisk (calculate_entropy bs)).2).1,
        (gemini_explain_file svc (calculate_entropy bs) (scanRisk (calculate_entropy bs)).1
          (scanRisk (calculate_entropy bs)).2).2) := rfl

theorem analyze_some (classify : String → String) (svc : PhishPrompt → Option String)
    (body : AnalyzeBody) (h : pyStrip body.message ≠ "") :
    analyze classify svc body =
      (.ok (textRisk ((phishing_signals (pyLower (pyStrip body.message))).score
              + mlWeight (classify (pyStrip body.message)))).1
          (textRisk ((phishing_signals (pyLower (pyStrip body.message))).score
              + mlWeight (classify (pyStrip body.message)))).2
          (phishing_signals (pyLower (pyStrip body.message)))
          (gemini_explain_phishing svc (pyStrip body.message)
            (textRisk ((phishing_signals (pyLower (pyStrip body.message))).score
                + mlWeight (classify (pyStrip body.message)))).1
            (textRisk ((phishing_signals (pyLower (pyStrip body.message))).score
                + mlWeight (classify (pyStrip body.message)))).2
            (if (phishing_signals (pyLower (pyStrip body.message))).activeNames = []
              then ["ML-based classification"]
              else (phishing_signals (pyLower (pyStrip body.message))).activeNames)).1
          (recommendedAction
            (textRisk ((phishing_signals (pyLower (pyStrip body.message))).score
                + mlWeight (classify (pyStrip body.message)))).1),
        (gemini_explain_phishing svc (pyStrip body.message)
          (textRisk ((phishing_signals (pyLower (pyStrip body.message))).score
              + mlWeight (classify (pyStrip body.message)))).1
          (textRisk ((phishing_signals (pyLower (pyStrip body.message))).score
              + mlWeight (classify (pyStrip body.message)))).2
          (if (phishing_signals (pyLower (pyStrip body.message))).activeNames = []
            then ["ML-based classification"]
            else (phishing_signals (pyLower (pyStrip body.message))).activeNames)).2) := by
  unfold analyze
  rw [if_neg h]

theorem textRisk_ge4 {s : ℕ} (h4 : 4 ≤ s) :
    textRisk s = ("Dangerous", min 95 (70 + (s : ℤ) * 5)) := by
  rw [textRisk, if_pos h4]

theorem textRisk_mid {s : ℕ} (h4 : s < 4) (h2 : 2 ≤ s) :
    textRisk s = ("Suspicious", min 85 (55 + (s : ℤ) * 5)) := by
  rw [textRisk, if_neg (by omega), if_pos h2]

theorem textRisk_lt2 {s : ℕ} (h2 : s < 2) :
    textRisk s = ("Safe", max 30 (85 - (s : ℤ) * 10)) := by
  rw [textRisk, if_neg (by omega), if_neg (by omega)]

theorem vaultRisk_high {e : ℚ} (h : e > 7.6) : vaultRisk e = (85, "Malicious") := by
  rw [vaultRisk, if_pos h]

theorem vaultRisk_mid {e : ℚ} (h1 : ¬ e > 7.6) (h2 : e > 6.6) :
    vaultRisk e = (55, "Suspicious") := by
  rw [vaultRisk, if_neg h1, if_pos h2]

theorem vaultRisk_low {e : ℚ} (h : ¬ e > 6.6) : vaultRisk e = (20, "Safe") := by
  rw [vaultRisk, if_neg (fun hc => h (lt_trans (by norm_num) hc)), if_neg h]

theorem scanRisk_high {e : ℚ} (h : e > 7.6) : scanRisk e = (90, "Malicious") := by
  rw [scanRisk, if_pos h]

theorem scanRisk_mid {e : ℚ} (h1 : ¬ e > 7.6) (h2 : e > 6.8) :
    scanRisk e = (60, "Suspicious") := by
  rw [scanRisk, if_neg h1, if_pos h2]

theorem scanRisk_low {e : ℚ} (h : ¬ e > 6.8) : scanRisk e = (20, "Clean") := by
  rw [scanRisk, if_neg (fun hc => h (lt_trans (by norm_num) hc)), if_neg h]

theorem analyze_risk (classify : String → String) (svc : PhishPrompt → Option String)
    (body : AnalyzeBody) (h : pyStrip body.message ≠ "") :
    (analyze classify svc body).1.risk =
      (textRisk ((phishing_signals (pyLower (pyStrip body.message))).score
        + mlWeight (classify (pyStrip body.message)))).1 := by
  rw [analyze_some classify svc body h]
  rfl

theorem analyze_confidence (classify : String → String) (svc : PhishPrompt → Option String)
    (body : AnalyzeBody) (h : pyStrip body.message ≠ "") :
    (analyze classify svc body).1.confidence =
      (textRisk ((phishing_signals (pyLower (pyStrip body.message))).score
        + mlWeight (classify (pyStrip body.message)))).2 := by
  rw [analyze_some classify svc body h]
  rfl

theorem analyze_signals (classify : String → String) (svc : PhishPrompt → Option String)
    (body : AnalyzeBody) (h : pyStrip body.message ≠ "") :
    (analyze classify svc body).1.signals =
      phishing_signals (pyLower (pyStrip body.message)) := by
  rw [analyze_some classify svc body h]
  rfl

theorem analyze_not_err (classify : String → String) (svc : PhishPrompt → Option String)
    (body : AnalyzeBody) (h : pyStrip body.message ≠ "") :
    (analyze classify svc body).1.isErr = false := by
  rw [analyze_some classify svc body h]
  rfl

theorem analyze_calls (classify : String → String) (svc : PhishPrompt → Option String)
    (body : AnalyzeBody) (h : pyStrip body.message ≠ "") :
    (analyze classify svc body).2 = 1 := by
  rw [analyze_some classify svc body h]
  exact gemini_explain_phishing_calls svc _ _ _ _

theorem entropy_wsBytes_le_three : calculate_entropy wsBytes ≤ 3 := by
  have hd : wsBytes.Nodup := by decide
  have hne : wsBytes ≠ [] := by decide
  rw [calculate_entropy_uniform hd hne]
  have hlen : wsBytes.length = 7 := by decide
  rw [hlen]
  have hlog : Real.logb 2 ((7 : ℕ) : ℝ) ≤ (3 : ℝ) := by
    have h8 : ((7 : ℕ) : ℝ) ≤ (2 : ℝ) ^ (3 : ℕ) := by norm_num
    have := Real.logb_le_logb_of_le (by norm_num : (1 : ℝ) < 2) (by norm_num) h8
    rwa [logb_two_pow] at this
  have h := round2_mono hlog
  have h3 : round2 ((3 : ℤ) : ℝ) = (3 : ℚ) := round2_intCast 3
  rw [show ((3 : ℤ) : ℝ) = (3 : ℝ) by norm_num] at h3
  rw [← h3]
  exact_mod_cast h

theorem vault_risk_score_eq (svc : FilePrompt → Option String) (name : String) (bs : List Byte) :
    (vault_analyze svc (some (name, bs))).1.risk_score = (vaultRisk (calculate_entropy bs)).1 := rfl

theorem vault_verdict_eq (svc : FilePrompt → Option String) (name : String) (bs : List Byte) :
    (vault_analyze svc (some (name, bs))).1.verdict = (vaultRisk (calculate_entropy bs)).2 := rfl

theorem vault_not_err (svc : FilePrompt → Option String) (name : String) (bs : List Byte) :
    (vault_analyze svc (some (name, bs))).1.isErr = false := rfl

theorem scan_risk_score_eq (svc : FilePrompt → Option String) (name : String) (bs : List Byte) :
    (scan_file svc (some (name, bs))).1.risk_score = (scanRisk (calculate_entropy bs)).1 := rfl

theorem scan_verdict_eq (svc : FilePrompt → Option String) (name : String) (bs : List Byte) :
    (scan_file svc (some (name, bs))).1.verdict = (scanRisk (calculate_entropy bs)).2 := rfl

theorem scan_not_err (svc : FilePrompt → Option String) (name : String) (bs : List Byte) :
    (scan_file svc (some (name, bs))).1.isErr = false := rfl

/-- C1: for every non-empty (stripped) message and every classifier label,
`analyze` fuses score = (number of true signals among suspicious_link,
email_address_present, urgent_language, impersonation, credential_request)
+ (3 for Dangerous, 1 for Suspicious, 0 for Safe), and returns Dangerous
with confidence min(95, 70 + score*5) when score ≥ 4, Suspicious with
confidence min(85, 55 + score*5) when score ≥ 2, and Safe with confidence
max(30, 85 - score*10) otherwise. -/
theorem spec_C1_analyze_fusion (classify : String → String) (svc : PhishPrompt → Option String)
    (body : AnalyzeBody) (h : pyStrip body.message ≠ "") :
    mlWeight "Dangerous" = 3 ∧ mlWeight "Suspicious" = 1 ∧ mlWeight "Safe" = 0 ∧
    (analyze classify svc body).1.signals = phishing_signals (pyLower (pyStrip body.message)) ∧
    ∀ score : ℕ,
      score = (phishing_signals (pyLower (pyStrip body.message))).score
          + mlWeight (classify (pyStrip body.message)) →
      (4 ≤ score →
        (analyze classify svc body).1.risk = "Dangerous" ∧
        (analyze classify svc body).1.confidence = min 95 (70 + (score : ℤ) * 5)) ∧
      (score < 4 → 2 ≤ score →
        (analyze classify svc body).1.risk = "Suspicious" ∧
        (analyze classify svc body).1.confidence = min 85 (55 + (score : ℤ) * 5)) ∧
      (score < 2 →
        (analyze classify svc body).1.risk = "Safe" ∧
        (analyze classify svc body).1.confidence = max 30 (85 - (score : ℤ) * 10)) := by
  refine ⟨by decide, by decide, by decide, analyze_signals classify svc body h, ?_⟩
  intro score hS
  rw [analyze_risk classify svc body h, analyze_confidence classify svc body h, ← hS]
  refine ⟨fun h4 => ?_, fun h4 h2 => ?_, fun h2 => ?_⟩
  · rw [textRisk_ge4 h4]
    exact ⟨rfl, rfl⟩
  · rw [textRisk_mid h4 h2]
    exact ⟨rfl, rfl⟩
  · rw [textRisk_lt2 h2]
    exact ⟨rfl, rfl⟩

/-- Witness for C1 at the concrete message `win a prize` with a classifier
returning Dangerous: no heuristic signal fires, the classifier weight is 3,
and the response is Suspicious with confidence min(85, 55 + 3*5) = 70. -/
theorem spec_C1_analyze_fusion_witness :
    (analyze classifyD svcP0 ⟨"win a prize", none⟩).1.risk = "Suspicious" ∧
    (analyze classifyD svcP0 ⟨"win a prize", none⟩).1.confidence = 70 := by
  have h := spec_C1_analyze_fusion classifyD svcP0 ⟨"win a prize", none⟩ (by decide)
  have h3 := (h.2.2.2.2 3 (by decide)).2.1 (by decide) (by decide)
  refine ⟨h3.1, ?_⟩
  rw [h3.2]
  norm_num

/-- C7: a request whose required input is missing is rejected with a 400
error object carrying only an `error` field, unconditionally in the other
inputs (so no scoring happens and no classifier or explanation call is
made): `analyze` on a message that strips to empty, and the two file
routes on an absent file part. -/
theorem spec_C7_missing_input :
    (∀ (classify : String → String) (svc : PhishPrompt → Option String) (body : AnalyzeBody),
      pyStrip body.message = "" →
      analyze classify svc body = (.err "Message is required" 400, 0)) ∧
    (∀ svc : FilePrompt → Option String,
      vault_analyze svc none = (.err "No file received" 400, 0)) ∧
    (∀ svc : FilePrompt → Option String,
      scan_file svc none = (.err "No file uploaded" 400, 0)) := by
  refine ⟨fun classify svc body h => ?_, fun svc => rfl, fun svc => rfl⟩
  unfold analyze
  rw [if_pos h]

/-- Witness for C7: the empty message, a whitespace-only message, and the
absent file parts are all rejected. -/
theorem spec_C7_missing_input_witness :
    analyze classify0 svcP0 ⟨"  ", none⟩ = (.err "Message is required" 400, 0) ∧
    vault_analyze svcF0 none = (.err "No file received" 400, 0) ∧
    scan_file svcF0 none = (.err "No file uploaded" 400, 0) :=
  ⟨spec_C7_missing_input.1 classify0 svcP0 ⟨"  ", none⟩ (by decide),
    spec_C7_missing_input.2.1 svcF0, spec_C7_missing_input.2.2 svcF0⟩

/-- C9: each verdict mapping is monotone in its score: the text table in
the fused score and both file tables in the entropy, with tiers
Safe = Clean = 0 < Suspicious = 1 < Dangerous = Malicious = 2. -/
theorem spec_C9_monotone :
    (∀ s1 s2 : ℕ, s1 ≤ s2 → tier (textRisk s1).1 ≤ tier (textRisk s2).1) ∧
    (∀ e1 e2 : ℚ, e1 ≤ e2 → tier (vaultRisk e1).2 ≤ tier (vaultRisk e2).2) ∧
    (∀ e1 e2 : ℚ, e1 ≤ e2 → tier (scanRisk e1).2 ≤ tier (scanRisk e2).2) := by
  refine ⟨fun s1 s2 h => ?_, fun e1 e2 h => ?_, fun e1 e2 h => ?_⟩
  · rcases le_or_lt 4 s1 with h4 | h4
    · rw [textRisk_ge4 h4, textRisk_ge4 (le_trans h4 h)]
    · rcases le_or_lt 2 s1 with h2 | h2
      · rw [textRisk_mid h4 h2]
        rcases le_or_lt 4 s2 with h4' | h4'
        · rw [textRisk_ge4 h4']
          show tier "Suspicious" ≤ tier "Dangerous"
          decide
        · rw [textRisk_mid h4' (le_trans h2 h)]
      · rw [textRisk_lt2 h2]
        have h0 : tier ("Safe", max 30 (85 - (s1 : ℤ) * 10)).1 = 0 := by
          show tier "Safe" = 0
          decide
        rw [h0]
        exact Nat.zero_le _
  · rcases lt_or_le (7.6 : ℚ) e1 with h1 | h1
    · rw [vaultRisk_high h1, vaultRisk_high (lt_of_lt_of_le h1 h)]
    · rcases lt_or_le (6.6 : ℚ) e1 with h2 | h2
      · rw [vaultRisk_mid (not_lt.mpr h1) h2]
        rcases lt_or_le (7.6 : ℚ) e2 with h1' | h1'
        · rw [vaultRisk_high h1']
          show tier "Suspicious" ≤ tier "Malicious"
          decide
        · rw [vaultRisk_mid (not_lt.mpr h1') (lt_of_lt_of_le h2 h)]
      · rw [vaultRisk_low (not_lt.mpr h2)]
        have h0 : tier ((20 : ℕ), "Safe").2 = 0 := by decide
        rw [h0]
        exact Nat.zero_le _
  · rcases lt_or_le (7.6 : ℚ) e1 with h1 | h1
    · rw [scanRisk_high h1, scanRisk_high (lt_of_lt_of_le h1 h)]
    · rcases lt_or_le (6.8 : ℚ) e1 with h2 | h2
      · rw [scanRisk_mid (not_lt.mpr h1) h2]
        rcases lt_or_le (7.6 : ℚ) e2 with h1' | h1'
        · rw [scanRisk_high h1']
          show tier "Suspicious" ≤ tier "Malicious"
          decide
        · rw [scanRisk_mid (not_lt.mpr h1') (lt_of_lt_of_le h2 h)]
      · rw [scanRisk_low (not_lt.mpr h2)]
        have h0 : tier ((20 : ℕ), "Clean").2 = 0 := by decide
        rw [h0]
        exact Nat.zero_le _

/-- Witness for C9 at concrete score and entropy pairs crossing the
thresholds of all three tables. -/
theorem spec_C9_monotone_witness :
    tier (textRisk 1).1 ≤ tier (textRisk 5).1 ∧
    tier (vaultRisk 1).2 ≤ tier (vaultRisk 7).2 ∧
    tier (scanRisk 7).2 ≤ tier (scanRisk 8).2 :=
  ⟨spec_C9_monotone.1 1 5 (by decide), spec_C9_monotone.2.1 1 7 (by norm_num),
    spec_C9_monotone.2.2 7 8 (by norm_num)⟩

/-- C10: an uploaded file with empty content is accepted by both file
routes; its entropy is 0 and it receives the lowest tier (Safe on
vault_analyze, Clean on scan_file) with risk score 20. -/
theorem spec_C10_empty_file (svc : FilePrompt → Option String) (name : String) :
    calculate_entropy ([] : List Byte) = 0 ∧
    (vault_analyze svc (some (name, []))).1.isErr = false ∧
    (vault_analyze svc (some (name, []))).1.risk_score = 20 ∧
    (vault_analyze svc (some (name, []))).1.verdict = "Safe" ∧
    (scan_file svc (some (name, []))).1.isErr = false ∧
    (scan_file svc (some (name, []))).1.risk_score = 20 ∧
    (scan_file svc (some (name, []))).1.verdict = "Clean" ∧
    (scan_file svc (some (name, []))).1.entropyVal = 0 := by
  have hv := vault_analyze_some svc name []
  have hs := scan_file_some svc name []
  have hv20 : vaultRisk (calculate_entropy ([] : List Byte)) = (20, "Safe") := by
    rw [calculate_entropy_nil]
    exact vaultRisk_low (by norm_num)
  have hs20 : scanRisk (calculate_entropy ([] : List Byte)) = (20, "Clean") := by
    rw [calculate_entropy_nil]
    exact scanRisk_low (by norm_num)
  rw [hv20] at hv
  rw [hs20] at hs
  refine ⟨calculate_entropy_nil, ?_, ?_, ?_, ?_, ?_, ?_, ?_⟩ <;>
    simp only [hv, hs] <;>
    simp [VaultResult.isErr, VaultResult.risk_score, VaultResult.verdict,
      ScanResult.isErr, ScanResult.risk_score, ScanResult.verdict, ScanResult.entropyVal,
      calculate_entropy_nil]

/-- C2: both file operations map the computed entropy through their fixed
table by strict comparisons: above 7.6 the risk score is 85 (vault) or 90
(scan) — within the claimed 85..90 — with verdict Malicious; above the
operation's second threshold (6.6 for vault, 6.8 for scan, both within
the claimed 6.6..6.8) the score is 55 or 60 — within 55..60 — with
verdict Suspicious; otherwise score 20 with verdict Safe (vault) or
Clean (scan). -/
theorem spec_C2_entropy_tables (svc : FilePrompt → Option String) (name : String)
    (bs : List Byte) :
    (calculate_entropy bs > 7.6 →
      (vault_analyze svc (some (name, bs))).1.risk_score = 85 ∧
      (vault_analyze svc (some (name, bs))).1.verdict = "Malicious" ∧
      (scan_file svc (some (name, bs))).1.risk_score = 90 ∧
      (scan_file svc (some (name, bs))).1.verdict = "Malicious") ∧
    (¬ calculate_entropy bs > 7.6 → calculate_entropy bs > 6.8 →
      (vault_analyze svc (some (name, bs))).1.risk_score = 55 ∧
      (vault_analyze svc (some (name, bs))).1.verdict = "Suspicious" ∧
      (scan_file svc (some (name, bs))).1.risk_score = 60 ∧
      (scan_file svc (some (name, bs))).1.verdict = "Suspicious") ∧
    (¬ calculate_entropy bs > 6.8 → calculate_entropy bs > 6.6 →
      (vault_analyze svc (some (name, bs))).1.risk_score = 55 ∧
      (vault_analyze svc (some (name, bs))).1.verdict = "Suspicious" ∧
      (scan_file svc (some (name, bs))).1.risk_score = 20 ∧
      (scan_file svc (some (name, bs))).1.verdict = "Clean") ∧
    (¬ calculate_entropy bs > 6.6 →
      (vault_analyze svc (some (name, bs))).1.risk_score = 20 ∧
      (vault_analyze svc (some (name, bs))).1.verdict = "Safe" ∧
      (scan_file svc (some (name, bs))).1.risk_score = 20 ∧
      (scan_file svc (some (name, bs))).1.verdict = "Clean") := by
  refine ⟨fun h1 => ?_, fun h1 h2 => ?_, fun h1 h2 => ?_, fun h1 => ?_⟩
  · rw [vault_risk_score_eq, vault_verdict_eq, scan_risk_score_eq, scan_verdict_eq,
      vaultRisk_high h1, scanRisk_high h1]
    exact ⟨rfl, rfl, rfl, rfl⟩
  · rw [vault_risk_score_eq, vault_verdict_eq, scan_risk_score_eq, scan_verdict_eq,
      vaultRisk_mid h1 (lt_trans (by norm_num) h2), scanRisk_mid h1 h2]
    exact ⟨rfl, rfl, rfl, rfl⟩
  · rw [vault_risk_score_eq, vault_verdict_eq, scan_risk_score_eq, scan_verdict_eq,
      vaultRisk_mid (fun hc => h1 (lt_trans (by norm_num) hc)) h2, scanRisk_low h1]
    exact ⟨rfl, rfl, rfl, rfl⟩
  · rw [vault_risk_score_eq, vault_verdict_eq, scan_risk_score_eq, scan_verdict_eq,
      vaultRisk_low h1, scanRisk_low (fun hc => h1 (lt_trans (by norm_num) hc))]
    exact ⟨rfl, rfl, rfl, rfl⟩

/-- Witness for C2 at the file holding all 256 byte values once: its
entropy is 8 > 7.6, so vault reports 85/Malicious and scan 90/Malicious. -/
theorem spec_C2_entropy_tables_witness :
    (vault_analyze svcF0 (some ("f", allBytes))).1.risk_score = 85 ∧
    (vault_analyze svcF0 (some ("f", allBytes))).1.verdict = "Malicious" ∧
    (scan_file svcF0 (some ("f", allBytes))).1.risk_score = 90 ∧
    (scan_file svcF0 (some ("f", allBytes))).1.verdict = "Malicious" :=
  (spec_C2_entropy_tables svcF0 "f" allBytes).1 (by rw [entropy_allBytes]; norm_num)

/-- C3 counterexample: on the concrete file holding 128 distinct byte
values once (entropy exactly 7), both operations say Suspicious but
vault_analyze reports risk score 55 while scan_file reports 60, so the
two file operations do not assign the same risk score to the same
bytes. -/
theorem spec_C3_counterexample :
    (vault_analyze svcF0 (some ("f", bytes128))).1.verdict = "Suspicious" ∧
    (scan_file svcF0 (some ("f", bytes128))).1.verdict = "Suspicious" ∧
    (vault_analyze svcF0 (some ("f", bytes128))).1.risk_score = 55 ∧
    (scan_file svcF0 (some ("f", bytes128))).1.risk_score = 60 ∧
    (55 : ℕ) ≠ 60 := by
  rw [vault_verdict_eq, scan_verdict_eq, vault_risk_score_eq, scan_risk_score_eq,
    entropy_bytes128, vaultRisk_mid (by norm_num) (by norm_num),
    scanRisk_mid (by norm_num) (by norm_num)]
  exact ⟨rfl, rfl, rfl, rfl, by decide⟩

/-- C3 amended: the implementation keeps two different file threshold
tables.  vault_analyze (85/55/20 at thresholds 7.6/6.6) and scan_file
(90/60/20 at thresholds 7.6/6.8) assign the same verdict tier exactly
when the entropy is outside (6.6, 6.8], and the same risk score exactly
when the entropy is at most 6.6. -/
theorem spec_C3_tables_differ (e : ℚ) :
    (tier (vaultRisk e).2 = tier (scanRisk e).2 ↔ ¬ (6.6 < e ∧ e ≤ 6.8)) ∧
    ((vaultRisk e).1 = (scanRisk e).1 ↔ e ≤ 6.6) := by
  rcases lt_or_le (7.6 : ℚ) e with h1 | h1
  · rw [vaultRisk_high h1, scanRisk_high h1]
    constructor
    · exact iff_of_true (by decide) (by rintro ⟨h6, h8⟩; linarith)
    · exact iff_of_false (by decide) (by intro hq; linarith)
  · rcases lt_or_le (6.8 : ℚ) e with h2 | h2
    · rw [vaultRisk_mid (not_lt.mpr h1) (lt_trans (by norm_num) h2),
        scanRisk_mid (not_lt.mpr h1) h2]
      constructor
      · exact iff_of_true (by decide) (by rintro ⟨h6, h8⟩; linarith)
      · exact iff_of_false (by decide) (by intro hq; linarith)
    · rcases lt_or_le (6.6 : ℚ) e with h3 | h3
      · rw [vaultRisk_mid (by intro hc; linarith) h3, scanRisk_low (not_lt.mpr h2)]
        constructor
        · exact iff_of_false (by decide) (fun hn => hn ⟨h3, h2⟩)
        · exact iff_of_false (by decide) (by intro hq; linarith)
      · rw [vaultRisk_low (not_lt.mpr h3), scanRisk_low (not_lt.mpr h2)]
        constructor
        · exact iff_of_true (by decide) (by rintro ⟨h6, h8⟩; linarith)
        · exact iff_of_true (by decide) h3

/-- Witness for C3 (amended) at the concrete entropy 7: the two tables
report different risk scores there. -/
theorem spec_C3_tables_differ_witness : (vaultRisk 7).1 ≠ (scanRisk 7).1 :=
  fun hc => absurd ((spec_C3_tables_differ 7).2.mp hc) (by norm_num)

/-- C4 counterexample: the file named payload.exe whose content is the
marker string wscript satisfies the claim's premise (the spec-modelled
signature scoring gives it score 70 and verdict Malicious), yet scan_file
judges it only by entropy (about 2.81 ≤ 3) and returns Clean with risk
score 20, not Malicious. -/
theorem spec_C4_counterexample :
    spec_signature_scan "payload.exe" wsBytes = (70, "Malicious", 80) ∧
    (scan_file svcF0 (some ("payload.exe", wsBytes))).1.verdict = "Clean" ∧
    (scan_file svcF0 (some ("payload.exe", wsBytes))).1.risk_score = 20 ∧
    ("Clean" : String) ≠ "Malicious" := by
  have h68 : ¬ calculate_entropy wsBytes > 6.8 := by
    have := entropy_wsBytes_le_three
    intro hc
    linarith
  refine ⟨by decide, ?_, ?_, by decide⟩
  · rw [scan_verdict_eq, scanRisk_low h68]
  · rw [scan_risk_score_eq, scanRisk_low h68]

/-- C4 amended: scan_file performs no signature or extension scoring.
Its verdict and risk score depend on the uploaded bytes only through
their entropy (and not on the filename): Malicious exactly above entropy
7.6, Suspicious exactly on (6.8, 7.6], Clean exactly at or below 6.8; a
payload.exe containing a signature marker is therefore Clean whenever
its content entropy is at most 6.8. -/
theorem spec_C4_scan_entropy_only (svc : FilePrompt → Option String)
    (n1 n2 : String) (bs : List Byte) :
    (scan_file svc (some (n1, bs))).1.verdict = (scan_file svc (some (n2, bs))).1.verdict ∧
    (scan_file svc (some (n1, bs))).1.risk_score
      = (scan_file svc (some (n2, bs))).1.risk_score ∧
    ((scan_file svc (some (n1, bs))).1.verdict = "Malicious"
      ↔ calculate_entropy bs > 7.6) ∧
    ((scan_file svc (some (n1, bs))).1.verdict = "Suspicious"
      ↔ (calculate_entropy bs > 6.8 ∧ ¬ calculate_entropy bs > 7.6)) ∧
    ((scan_file svc (some (n1, bs))).1.verdict = "Clean"
      ↔ ¬ calculate_entropy bs > 6.8) := by
  refine ⟨by rw [scan_verdict_eq, scan_verdict_eq], by rw [scan_risk_score_eq, scan_risk_score_eq],
    ?_, ?_, ?_⟩ <;> rw [scan_verdict_eq] <;>
    rcases lt_or_le (7.6 : ℚ) (calculate_entropy bs) with h1 | h1
  · rw [scanRisk_high h1]
    exact iff_of_true rfl h1
  · rcases lt_or_le (6.8 : ℚ) (calculate_entropy bs) with h2 | h2
    · rw [scanRisk_mid (not_lt.mpr h1) h2]
      exact iff_of_false (by decide) (fun hc => absurd hc (not_lt.mpr h1))
    · rw [scanRisk_low (not_lt.mpr h2)]
      exact iff_of_false (by decide) (fun hc => absurd hc (not_lt.mpr (le_trans h2 (by norm_num))))
  · rw [scanRisk_high h1]
    exact iff_of_false (by decide) (fun hc => absurd h1 hc.2)
  · rcases lt_or_le (6.8 : ℚ) (calculate_entropy bs) with h2 | h2
    · rw [scanRisk_mid (not_lt.mpr h1) h2]
      exact iff_of_true rfl ⟨h2, not_lt.mpr h1⟩
    · rw [scanRisk_low (not_lt.mpr h2)]
      exact iff_of_false (by decide) (fun hc => absurd hc.1 (not_lt.mpr h2))
  · rw [scanRisk_high h1]
    exact iff_of_false (by decide) (fun hc => hc (lt_trans (by norm_num) h1))
  · rcases lt_or_le (6.8 : ℚ) (calculate_entropy bs) with h2 | h2
    · rw [scanRisk_mid (not_lt.mpr h1) h2]
      exact iff_of_false (by decide) (fun hc => hc h2)
    · rw [scanRisk_low (not_lt.mpr h2)]
      exact iff_of_true rfl (not_lt.mpr h2)

/-- Witness for C4 (amended): the wscript-content file gets the same
verdict under the names payload.exe and report.txt. -/
theorem spec_C4_scan_entropy_only_witness :
    (scan_file svcF0 (some ("payload.exe", wsBytes))).1.verdict
      = (scan_file svcF0 (some ("report.txt", wsBytes))).1.verdict :=
  (spec_C4_scan_entropy_only svcF0 "payload.exe" "report.txt" wsBytes).1

/-- C5 counterexample: two explanation-bearing requests — issued at any
time, hence in particular within one cooldown window — each produce a
live call to the external explanation service (the code keeps no
cooldown state and gates nothing), so 2 requests make 2 live calls, not
exactly 1. -/
theorem spec_C5_counterexample :
    (vault_analyze svcF0 (some ("a", [(0 : Byte)]))).2
      + (vault_analyze svcF0 (some ("b", [(0 : Byte)]))).2 = 2 ∧ (2 : ℕ) ≠ 1 := by
  constructor
  · rw [vault_analyze_some, vault_analyze_some, gemini_explain_file_calls]
  · decide

/-- C5 amended: the code has no cooldown gate at all: every request that
reaches the explanation stage performs exactly one live call to the
external explanation service, so N such requests always make N live
calls (each degrading to the fallback string only if its own call
fails). -/
theorem spec_C5_no_cooldown_gate :
    (∀ (svc : FilePrompt → Option String) (name : String) (bs : List Byte),
      (vault_analyze svc (some (name, bs))).2 = 1) ∧
    (∀ (svc : FilePrompt → Option String) (name : String) (bs : List Byte),
      (scan_file svc (some (name, bs))).2 = 1) ∧
    (∀ (classify : String → String) (svc : PhishPrompt → Option String) (body : AnalyzeBody),
      pyStrip body.message ≠ "" → (analyze classify svc body).2 = 1) := by
  refine ⟨fun svc name bs => ?_, fun svc name bs => ?_,
    fun classify svc body h => analyze_calls classify svc body h⟩
  · rw [vault_analyze_some]
    exact gemini_explain_file_calls svc _ _ _
  · rw [scan_file_some]
    exact gemini_explain_file_calls svc _ _ _

/-- Witness for C5 (amended) at a concrete file request and a concrete
non-empty message request. -/
theorem spec_C5_no_cooldown_gate_witness :
    (vault_analyze svcF0 (some ("a", [(0 : Byte)]))).2 = 1 ∧
    (analyze classify0 svcP0 ⟨"hello", none⟩).2 = 1 :=
  ⟨spec_C5_no_cooldown_gate.1 svcF0 "a" [0],
    spec_C5_no_cooldown_gate.2.2 classify0 svcP0 ⟨"hello", none⟩ (by decide)⟩

/-- C6 counterexample: the fallback string is not selected by any
target-language code: the analyze handler reads no language field, and
two requests differing only in their language field receive, on service
failure, the identical fixed English fallback string; likewise the file
routes always fall back to the fixed string Explanation unavailable. -/
theorem spec_C6_counterexample :
    (analyze classify0 svcP0 ⟨"hello", some "hi"⟩).1.explanation =
      "This message shows characteristics commonly associated with phishing attempts." ∧
    (analyze classify0 svcP0 ⟨"hello", some "en"⟩).1.explanation =
      (analyze classify0 svcP0 ⟨"hello", some "hi"⟩).1.explanation ∧
    (vault_analyze svcF0 (some ("f", [(0 : Byte)]))).1.explanation =
      "Explanation unavailable." := by
  have h1 : (analyze classify0 svcP0 ⟨"hello", some "hi"⟩).1.explanation =
      "This message shows characteristics commonly associated with phishing attempts." := by
    rw [analyze_some classify0 svcP0 ⟨"hello", some "hi"⟩ (by decide)]
    rfl
  have h2 : (analyze classify0 svcP0 ⟨"hello", some "en"⟩).1.explanation =
      "This message shows characteristics commonly associated with phishing attempts." := by
    rw [analyze_some classify0 svcP0 ⟨"hello", some "en"⟩ (by decide)]
    rfl
  exact ⟨h1, by rw [h1, h2], rfl⟩

/-- C6 amended: on explanation-service failure every handler still
succeeds and returns a fixed per-endpoint English fallback string,
independent of any language field of the request; the verdict,
confidence/score and signals are identical to what any other service
behaviour (in particular success) would produce. -/
theorem spec_C6_fallback_degradation :
    (∀ (classify : String → String) (body : AnalyzeBody), pyStrip body.message ≠ "" →
      (analyze classify svcP0 body).1.isErr = false ∧
      (analyze classify svcP0 body).1.explanation =
        "This message shows characteristics commonly associated with phishing attempts." ∧
      (∀ svc : PhishPrompt → Option String,
        (analyze classify svc body).1.risk = (analyze classify svcP0 body).1.risk ∧
        (analyze classify svc body).1.confidence = (analyze classify svcP0 body).1.confidence ∧
        (analyze classify svc body).1.signals = (analyze classify svcP0 body).1.signals) ∧
      (∀ lang : Option String,
        analyze classify svcP0 ⟨body.message, lang⟩ = analyze classify svcP0 body)) ∧
    (∀ (name : String) (bs : List Byte),
      (vault_analyze svcF0 (some (name, bs))).1.isErr = false ∧
      (vault_analyze svcF0 (some (name, bs))).1.explanation = "Explanation unavailable." ∧
      (∀ svc : FilePrompt → Option String,
        (vault_analyze svc (some (name, bs))).1.risk_score
          = (vault_analyze svcF0 (some (name, bs))).1.risk_score ∧
        (vault_analyze svc (some (name, bs))).1.verdict
          = (vault_analyze svcF0 (some (name, bs))).1.verdict)) ∧
    (∀ (name : String) (bs : List Byte),
      (scan_file svcF0 (some (name, bs))).1.isErr = false ∧
      (scan_file svcF0 (some (name, bs))).1.explanation = "Explanation unavailable." ∧
      (∀ svc : FilePrompt → Option String,
        (scan_file svc (some (name, bs))).1.risk_score
          = (scan_file svcF0 (some (name, bs))).1.risk_score ∧
        (scan_file svc (some (name, bs))).1.verdict
          = (scan_file svcF0 (some (name, bs))).1.verdict)) := by
  refine ⟨fun classify body h => ⟨analyze_not_err classify svcP0 body h, ?_, fun svc => ?_, fun lang => rfl⟩,
    fun name bs => ⟨vault_not_err svcF0 name bs, ?_, fun svc => ?_⟩,
    fun name bs => ⟨scan_not_err svcF0 name bs, ?_, fun svc => ?_⟩⟩
  · rw [analyze_some classify svcP0 body h]
    rfl
  · rw [analyze_risk classify svc body h, analyze_risk classify svcP0 body h,
      analyze_confidence classify svc body h, analyze_confidence classify svcP0 body h,
      analyze_signals classify svc body h, analyze_signals classify svcP0 body h]
    exact ⟨rfl, rfl, rfl⟩
  · rw [vault_analyze_some]
    rfl
  · rw [vault_risk_score_eq, vault_risk_score_eq, vault_verdict_eq, vault_verdict_eq]
    exact ⟨rfl, rfl⟩
  · rw [scan_file_some]
    rfl
  · rw [scan_risk_score_eq, scan_risk_score_eq, scan_verdict_eq, scan_verdict_eq]
    exact ⟨rfl, rfl⟩

/-- Witness for C6 (amended) at the concrete message hello with a failing
service. -/
theorem spec_C6_fallback_degradation_witness :
    (analyze classify0 svcP0 ⟨"hello", some "hi"⟩).1.isErr = false ∧
    (analyze classify0 svcP0 ⟨"hello", some "hi"⟩).1.explanation =
      "This message shows characteristics commonly associated with phishing attempts." :=
  ⟨(spec_C6_fallback_degradation.1 classify0 ⟨"hello", some "hi"⟩ (by decide)).1,
    (spec_C6_fallback_degradation.1 classify0 ⟨"hello", some "hi"⟩ (by decide)).2.1⟩

/-- C8: calculate_entropy is a total function of the byte buffer: the
empty buffer has entropy 0, a buffer of one repeated byte value has
entropy 0, every buffer's entropy lies in [0, 8], and for non-empty
buffers it is exactly the Shannon entropy -Σ p·log2 p over the empirical
byte frequencies (summed over all 256 byte values; absent values
contribute 0), rounded to two decimals. -/
theorem spec_C8_entropy_total :
    calculate_entropy ([] : List Byte) = 0 ∧
    (∀ (b : Byte) (n : ℕ), n ≠ 0 → calculate_entropy (List.replicate n b) = 0) ∧
    (∀ bs : List Byte, 0 ≤ calculate_entropy bs ∧ calculate_entropy bs ≤ 8) ∧
    (∀ bs : List Byte, bs ≠ [] →
      calculate_entropy bs = round2 (- ∑ b : Byte,
        ((bs.count b : ℝ) / (bs.length : ℝ))
          * Real.logb 2 ((bs.count b : ℝ) / (bs.length : ℝ)))) := by
  refine ⟨calculate_entropy_nil, calculate_entropy_replicate,
    fun bs => ⟨calculate_entropy_nonneg bs, calculate_entropy_le_eight bs⟩, fun bs h => ?_⟩
  have hsum : (∑ b ∈ bs.toFinset,
      ((bs.count b : ℝ) / (bs.length : ℝ))
        * Real.logb 2 ((bs.count b : ℝ) / (bs.length : ℝ)))
      = ∑ b : Byte, ((bs.count b : ℝ) / (bs.length : ℝ))
          * Real.logb 2 ((bs.count b : ℝ) / (bs.length : ℝ)) := by
    refine Finset.sum_subset (Finset.subset_univ _) (fun b _ hb => ?_)
    have hc : bs.count b = 0 := by
      rw [List.count_eq_zero, ← List.mem_toFinset]
      exact hb
    rw [hc]
    norm_num
  rw [calculate_entropy, if_neg h]
  unfold rawEntropy
  rw [hsum]

/-- Witness for C8 at concrete buffers: three repeated zero bytes, the
256-value buffer, and the one-byte buffer for the exact-formula part. -/
theorem spec_C8_entropy_total_witness :
    calculate_entropy (List.replicate 3 (0 : Byte)) = 0 ∧
    (0 ≤ calculate_entropy allBytes ∧ calculate_entropy allBytes ≤ 8) ∧
    calculate_entropy [(0 : Byte)] = round2 (- ∑ b : Byte,
      (([(0 : Byte)].count b : ℝ) / (([(0 : Byte)] : List Byte).length : ℝ))
        * Real.logb 2 (([(0 : Byte)].count b : ℝ) / (([(0 : Byte)] : List Byte).length : ℝ))) :=
  ⟨spec_C8_entropy_total.2.1 0 3 (by decide), spec_C8_entropy_total.2.2.1 allBytes,
    spec_C8_entropy_total.2.2.2 [(0 : Byte)] (by decide)⟩

/-- Witness for C10 at a concrete empty upload. -/
theorem spec_C10_empty_file_witness :
    (vault_analyze svcF0 (some ("empty.bin", []))).1.risk_score = 20 ∧
    (scan_file svcF0 (some ("empty.bin", []))).1.verdict = "Clean" :=
  ⟨(spec_C10_empty_file svcF0 "empty.bin").2.2.1,
    (spec_C10_empty_file svcF0 "empty.bin").2.2.2.2.2.2.1⟩

end Suraksha
